import Mathlib

/-!
Verification of the AppScale per-application runtime launcher
(`AppServer/google/appengine/tools/devappserver2/python/runtime.py`) and the
admin queue-update endpoint (`AdminServer/appscale/admin/appengine_api.py`),
by a shallow embedding: pure data is translated as Lean structures, side
effects (the startup script, file reads, the bound port, the driver socket
lookup) are supplied by an explicit environment record, and `main` is
translated as a total function that also returns the ordered trace of the
externally visible events it performs.
-/

namespace AppscaleRuntime

/-- The optional relational-database sub-record of the runtime configuration
(`cloud_sql_config` in `runtime_config_pb2.Config`).  Proto2 string fields
default to the empty string, so an unset `mysql_socket` is `""`. -/
structure CloudSqlConfig where
  mysql_host : String
  mysql_port : Nat
  mysql_user : String
  mysql_password : String
  mysql_socket : String
deriving DecidableEq

/-- The python-specific sub-record (`python_config`); `startup_script` is a
proto2 string field defaulting to `""` when unset. -/
structure PythonConfig where
  startup_script : String
deriving DecidableEq

/-- The launch configuration decoded once from stdin
(`runtime_config_pb2.Config`). -/
structure Config where
  app_id : String
  api_port : Nat
  cloud_sql_config : Option CloudSqlConfig
  python_config : Option PythonConfig
deriving DecidableEq

/-- The guard `config.python_config and config.python_config.startup_script`
of `main`: an absent sub-message carries an empty `startup_script`, so the
startup-script branch is taken exactly when a non-empty script path is
configured. -/
def Config.hasStartupScript (c : Config) : Bool :=
  match c.python_config with
  | some pc => pc.startup_script != ""
  | none => false

/-- The configured startup-script path (`config.python_config.startup_script`). -/
def Config.startupScriptPath (c : Config) : String :=
  match c.python_config with
  | some pc => pc.startup_script
  | none => ""

/-- The exception information Python attaches to a failed `execfile`:
`str(e)` and `traceback.format_exc()`. -/
structure ScriptError where
  message : String
  formattedTraceback : String
deriving DecidableEq

/-- The ambient process environment of one launcher run: the effect of
executing a given startup script, the contents of the two fixed local files,
`os.name`, the result of the driver socket lookup, and the ephemeral port
the HTTP server actually binds. -/
structure Env where
  execScript : String → Except ScriptError Unit
  myPrivateIpFile : String
  loginIpFile : String
  osName : String
  findUnixSocket : Option String
  boundPort : Nat

/-- The arguments `setup_stubs` passes to
`remote_api_stub.ConfigureRemoteApi`. -/
structure RemoteApiConfig where
  app_id : String
  path : String
  server : String
  use_remote_datastore : Bool
  use_async_rpc : Bool
deriving DecidableEq

/-- The keyword arguments `setup_stubs` hands to
`rdbms_mysqldb.SetConnectKwargs`.  The outer `Option` on `unix_socket`
records whether the key was put into the dict at all; the inner `Option`
is the value, which may itself be Python `None` when `FindUnixSocket`
returned nothing. -/
structure ConnectKwargs where
  host : String
  port : Nat
  user : String
  passwd : String
  unix_socket : Option (Option String)
deriving DecidableEq

/-- Modelled from the spec: `rdbms_mysqldb.FindUnixSocket` is code of this
repository that is not under src/ (only its caller `setup_stubs` is).  Per
the spec it resolves a default local MySQL socket path via a driver-provided
lookup, and when the lookup yields nothing the failure is logged once, via
an early-return pattern, by this single per-process call rather than per
connection.  The second component counts the warnings this call emits. -/
def FindUnixSocket (env : Env) : Option String × Nat :=
  match env.findUnixSocket with
  | some s => (some s, 0)
  | none => (none, 1)

/-- Everything `setup_stubs` does, as data: the remote-API stub
configuration, whether the `google.appengine.api.rdbms` module binding was
overridden with `rdbms_mysqldb`, the connect kwargs installed (when a
`cloud_sql_config` is present), and how many socket-lookup warnings were
emitted during the call. -/
structure StubsResult where
  remote_api : RemoteApiConfig
  rdbms_module_overridden : Bool
  connect_kwargs : Option ConnectKwargs
  lookupWarnings : Nat
deriving DecidableEq

/-- `setup_stubs(config)` from `runtime.py`: configure the remote API stub at
`localhost:<api_port>` with `use_remote_datastore=False` and
`use_async_rpc=True`; when a `cloud_sql_config` is present, override the
rdbms module binding and build the connect kwargs, resolving the unix
socket either from the explicit `mysql_socket`, or — on posix with host
`localhost` — from `FindUnixSocket`. -/
def setup_stubs (env : Env) (config : Config) : StubsResult :=
  let remote_api : RemoteApiConfig :=
    { app_id := config.app_id
      path := "/"
      server := "localhost:" ++ toString config.api_port
      use_remote_datastore := false
      use_async_rpc := true }
  match config.cloud_sql_config with
  | none =>
      { remote_api := remote_api
        rdbms_module_overridden := false
        connect_kwargs := none
        lookupWarnings := 0 }
  | some sql =>
      let base : ConnectKwargs :=
        { host := sql.mysql_host
          port := sql.mysql_port
          user := sql.mysql_user
          passwd := sql.mysql_password
          unix_socket := none }
      if sql.mysql_socket != "" then
        { remote_api := remote_api
          rdbms_module_overridden := true
          connect_kwargs := some { base with unix_socket := some (some sql.mysql_socket) }
          lookupWarnings := 0 }
      else if env.osName == "posix" && sql.mysql_host == "localhost" then
        let fs := FindUnixSocket env
        { remote_api := remote_api
          rdbms_module_overridden := true
          connect_kwargs := some { base with unix_socket := some fs.1 }
          lookupWarnings := fs.2 }
      else
        { remote_api := remote_api
          rdbms_module_overridden := true
          connect_kwargs := some base
          lookupWarnings := 0 }

/-- Modelled from the spec: connection attempts made after `setup_stubs`
reuse the stored connect kwargs and never re-run the socket lookup
(`FindUnixSocket` cannot even run then, since `os.access` is replaced in the
sandbox), so a connection attempt emits no lookup warnings. -/
def connectAttemptLookupWarnings : Nat := 0

/-- Total number of "socket lookup returned nothing" warnings emitted in a
process that runs `setup_stubs` once and then makes `retries` connection
attempts. -/
def processLookupWarnings (env : Env) (config : Config) (retries : Nat) : Nat :=
  (setup_stubs env config).lookupWarnings + retries * connectAttemptLookupWarnings

/-- C7: `setup_stubs` configures the backend stub for the configured app at
`localhost:<api_port>`, with asynchronous RPCs enabled
(`use_async_rpc=True`) and without the locally cached remote datastore
(`use_remote_datastore=False`), for every environment and configuration. -/
theorem setup_stubs_remote_api (env : Env) (config : Config) :
    (setup_stubs env config).remote_api =
      { app_id := config.app_id
        path := "/"
        server := "localhost:" ++ toString config.api_port
        use_remote_datastore := false
        use_async_rpc := true } := by
  unfold setup_stubs
  cases config.cloud_sql_config with
  | none => rfl
  | some sql =>
      simp only []
      split <;> [rfl; skip]
      split <;> rfl

/-- The startup-script failure record built in `main`:
`StartupScriptFailureApplication(config, str(e), traceback.format_exc())`. -/
structure FailureRecord where
  config : Config
  exception_message : String
  formatted_traceback : String
deriving DecidableEq

/-- Which application object the server is constructed with: the debugging
failure application or the real sandboxed request-handling chain
(`request_rewriter.runtime_rewriter_middleware(request_handler.RequestHandler(config))`). -/
inductive AppKind
  | failureApp (record : FailureRecord)
  | realChain
deriving DecidableEq

/-- The externally visible steps `main` performs, in order. -/
inductive Event
  | readConfig
  | execStartup (path : String)
  | startupFailed (message : String)
  | readFile (path : String)
  | setupStubsCall
  | enableSandbox
  | bindExpandUser
  | importRequestHandler
  | setEnvVar (nm value : String)
  | constructServer (app : AppKind)
  | serverStart
  | stdoutWrite (content : String)
  | stdoutClose
  | stdoutRebindToStderr
  | serverQuit
deriving DecidableEq

/-- The outcome of one run of `main`: the ordered event trace, the final
value of the `debugging_app` local, which application the server serves,
and the environment variables exported via `os.environ`. -/
structure MainResult where
  events : List Event
  debugging_app : Option FailureRecord
  served_app : AppKind
  env_vars : List (String × String)
deriving DecidableEq

/-- The startup-script block of `main`: when a script is configured,
`execfile` it; any raised `Exception` is caught right there and turned into
a `FailureRecord` (the `StartupScriptFailureApplication` arguments).
Returns the `debugging_app` value together with the events performed. -/
def runStartupScript (env : Env) (config : Config) :
    Option FailureRecord × List Event :=
  if config.hasStartupScript then
    match env.execScript config.startupScriptPath with
    | Except.ok _ => (none, [Event.execStartup config.startupScriptPath])
    | Except.error e =>
        (some ⟨config, e.message, e.formattedTraceback⟩,
         [Event.execStartup config.startupScriptPath,
          Event.startupFailed e.message])
  else (none, [])

/-- The fake `os.path.expanduser` installed on the sandboxed path
(`expand_user` in `runtime.py`). -/
def expand_user (path : String) : String := path

/-- `main()` from `runtime.py` as a total function over the explicit
environment: decode the config, maybe run the startup script, read the two
fixed files, then either serve the failure application or wire the stubs,
enable the sandbox, bind `expand_user`, import the request handler, export
the two environment variables and serve the real chain; in both cases start
the server, print its port, close and rebind stdout, idle, and quit. -/
def main (env : Env) (config : Config) : MainResult :=
  let sr := runStartupScript env config
  let my_ip_address := env.myPrivateIpFile.trim
  let nginx_host := (env.loginIpFile.splitOn "\n").headD ""
  let readEvents := [Event.readFile "/etc/appscale/my_private_ip",
                     Event.readFile "/etc/appscale/login_ip"]
  let tailEvents := fun (app : AppKind) =>
    [Event.constructServer app,
     Event.serverStart,
     Event.stdoutWrite (toString env.boundPort ++ "\n"),
     Event.stdoutClose,
     Event.stdoutRebindToStderr,
     Event.serverQuit]
  match sr.1 with
  | some record =>
      { events := Event.readConfig :: sr.2 ++ readEvents ++
          tailEvents (AppKind.failureApp record)
        debugging_app := some record
        served_app := AppKind.failureApp record
        env_vars := [] }
  | none =>
      { events := Event.readConfig :: sr.2 ++ readEvents ++
          [Event.setupStubsCall,
           Event.enableSandbox,
           Event.bindExpandUser,
           Event.importRequestHandler,
           Event.setEnvVar "MY_IP_ADDRESS" my_ip_address,
           Event.setEnvVar "NGINX_HOST" nginx_host] ++
          tailEvents AppKind.realChain
        debugging_app := none
        served_app := AppKind.realChain
        env_vars := [("MY_IP_ADDRESS", my_ip_address),
                     ("NGINX_HOST", nginx_host)] }

/-- Selects the operations `main` performs on the primary output stream. -/
def Event.isStdoutOp : Event → Bool
  | Event.stdoutWrite _ => true
  | Event.stdoutClose => true
  | Event.stdoutRebindToStderr => true
  | _ => false

/-- The subtrace of stdout operations of a run, in order. -/
def stdoutOps (r : MainResult) : List Event :=
  r.events.filter Event.isStdoutOp

/-- Selects the events whose relative order the sandbox contract
constrains: stub wiring, sandbox activation, the request-handler import,
and server construction. -/
def Event.isSandboxOrderOp : Event → Bool
  | Event.setupStubsCall => true
  | Event.enableSandbox => true
  | Event.importRequestHandler => true
  | Event.constructServer _ => true
  | _ => false

/-- The subtrace of sandbox-order-relevant events of a run, in order. -/
def sandboxOps (r : MainResult) : List Event :=
  r.events.filter Event.isSandboxOrderOp

/-- C1: on every run, the operations `main` performs on the primary output
stream are exactly: one write, whose content is the decimal rendering of
the port the server actually bound followed by a newline, then the close of
stdout, then its rebinding to stderr — so the single port line is written
before the stream is closed and rebound, and nothing else is ever written
there. -/
theorem main_stdout_protocol (env : Env) (config : Config) :
    stdoutOps (main env config) =
      [Event.stdoutWrite (toString env.boundPort ++ "\n"),
       Event.stdoutClose,
       Event.stdoutRebindToStderr] := by
  unfold stdoutOps main runStartupScript
  by_cases h : config.hasStartupScript = true
  · simp only [h, if_true]
    cases henv : env.execScript config.startupScriptPath <;>
      simp [Event.isStdoutOp]
  · simp only [Bool.not_eq_true] at h
    simp [h, Event.isStdoutOp]

/-- C2: on the normal path (no startup-script failure, so `debugging_app`
is unset), the sandbox-order-relevant subtrace is exactly stub wiring, then
one sandbox activation, then the request-handler import, then construction
of the server with the real chain — sandbox activation happens exactly
once, strictly after `setup_stubs` and strictly before the real
request-handling chain is built. -/
theorem sandbox_order (env : Env) (config : Config)
    (h : (main env config).debugging_app = none) :
    sandboxOps (main env config) =
      [Event.setupStubsCall,
       Event.enableSandbox,
       Event.importRequestHandler,
       Event.constructServer AppKind.realChain] := by
  unfold sandboxOps
  unfold main at h ⊢
  by_cases hs : config.hasStartupScript = true
  · unfold runStartupScript at h ⊢
    simp only [hs, if_true] at h ⊢
    cases henv : env.execScript config.startupScriptPath with
    | ok u => simp [Event.isSandboxOrderOp]
    | error e => simp [henv] at h
  · simp only [Bool.not_eq_true] at hs
    unfold runStartupScript at h ⊢
    simp [hs, Event.isSandboxOrderOp]

/-- A configuration with no sub-records: no database block and no startup
script. -/
def config0 : Config :=
  { app_id := "guestbook"
    api_port := 8080
    cloud_sql_config := none
    python_config := none }

/-- A benign environment: the startup script (never run for `config0`)
succeeds, the two fixed files hold one address each, and the server binds
port 38123. -/
def env0 : Env :=
  { execScript := fun _ => Except.ok ()
    myPrivateIpFile := "10.0.0.1\n"
    loginIpFile := "10.0.0.2\n"
    osName := "posix"
    findUnixSocket := none
    boundPort := 38123 }

/-- Witness for C2 at the concrete run `main env0 config0`. -/
theorem sandbox_order_witness :
    sandboxOps (main env0 config0) =
      [Event.setupStubsCall,
       Event.enableSandbox,
       Event.importRequestHandler,
       Event.constructServer AppKind.realChain] :=
  sandbox_order env0 config0 rfl

/-- C3: when a startup script is configured and executing it raises, the
error is contained at that boundary: `main` records a `FailureRecord`
holding the config, the exception message and the formatted traceback as
its `debugging_app`, serves the failure application built from exactly that
record, and still completes the normal stdout handshake (the error does not
propagate further up). -/
theorem startup_failure_contained (env : Env) (config : Config)
    (e : ScriptError)
    (hs : config.hasStartupScript = true)
    (he : env.execScript config.startupScriptPath = Except.error e) :
    (main env config).debugging_app =
      some ⟨config, e.message, e.formattedTraceback⟩ ∧
    (main env config).served_app =
      AppKind.failureApp ⟨config, e.message, e.formattedTraceback⟩ ∧
    stdoutOps (main env config) =
      [Event.stdoutWrite (toString env.boundPort ++ "\n"),
       Event.stdoutClose,
       Event.stdoutRebindToStderr] := by
  refine ⟨?_, ?_, main_stdout_protocol env config⟩ <;>
    · unfold main runStartupScript
      simp [hs, he]

/-- A configuration whose startup script is the guestbook setup script. -/
def configBoom : Config :=
  { app_id := "guestbook"
    api_port := 8080
    cloud_sql_config := none
    python_config := some { startup_script := "/var/apps/guestbook/startup.py" } }

/-- An environment in which executing any startup script raises
`RuntimeError("boom")`. -/
def envBoom : Env :=
  { execScript := fun _ =>
      Except.error { message := "boom"
                     formattedTraceback := "Traceback (most recent call last): boom" }
    myPrivateIpFile := "10.0.0.1\n"
    loginIpFile := "10.0.0.2\n"
    osName := "posix"
    findUnixSocket := none
    boundPort := 38123 }

/-- Witness for C3 at the concrete failing run `main envBoom configBoom`. -/
theorem startup_failure_contained_witness :
    (main envBoom configBoom).debugging_app =
      some ⟨configBoom, "boom", "Traceback (most recent call last): boom"⟩ ∧
    (main envBoom configBoom).served_app =
      AppKind.failureApp
        ⟨configBoom, "boom", "Traceback (most recent call last): boom"⟩ ∧
    stdoutOps (main envBoom configBoom) =
      [Event.stdoutWrite (toString envBoom.boundPort ++ "\n"),
       Event.stdoutClose,
       Event.stdoutRebindToStderr] :=
  startup_failure_contained envBoom configBoom
    { message := "boom"
      formattedTraceback := "Traceback (most recent call last): boom" }
    rfl rfl

/-- C5: when no startup script is configured, `debugging_app` stays unset
and the server is always constructed with the real request-handling chain,
whatever the rest of the configuration and environment. -/
theorem no_script_serves_real (env : Env) (config : Config)
    (h : config.hasStartupScript = false) :
    (main env config).debugging_app = none ∧
    (main env config).served_app = AppKind.realChain := by
  unfold main runStartupScript
  simp [h]

/-- Witness for C5 at the concrete run `main env0 config0`. -/
theorem no_script_serves_real_witness :
    (main env0 config0).debugging_app = none ∧
    (main env0 config0).served_app = AppKind.realChain :=
  no_script_serves_real env0 config0 rfl

/-- The literal text of `_STARTUP_FAILURE_TEMPLATE` before the
`exception_message` placeholder. -/
def templatePrefix : String :=
  "\n<!DOCTYPE html>\n<html>\n<head>\n<title>Startup Script Failure</title>\n</head>\n\n<body>\n<b>Debugger startup failed: "

/-- The literal template text between the `exception_message` and `config`
placeholders. -/
def templateMid1 : String :=
  "</b>\n<details>\n  <summary>Configuration</summary>\n  <pre><code>"

/-- The literal template text between the `config` and `traceback`
placeholders. -/
def templateMid2 : String :=
  "</code></pre>\n</details>\n<details>\n  <summary>Traceback</summary>\n  <pre><code>"

/-- The literal template text after the `traceback` placeholder. -/
def templateSuffix : String :=
  "</code></pre>\n</details>\n</body>\n</html>"

/-- `_STARTUP_FAILURE_TEMPLATE.format(...)`: the fixed HTML document with
the three values substituted verbatim at their placeholders. -/
def startupFailureTemplate (exception_message config traceback : String) : String :=
  templatePrefix ++ exception_message ++ templateMid1 ++ config ++
    templateMid2 ++ traceback ++ templateSuffix

/-- The textual rendering `str(config)` of the launch configuration
(protobuf text format). -/
def configStr (c : Config) : String :=
  "app_id: \"" ++ c.app_id ++ "\"\napi_port: " ++ toString c.api_port ++ "\n"

/-- An incoming WSGI request, abstracted to the parts the claims mention:
its HTTP method and path (the failure application looks at neither). -/
structure WsgiRequest where
  method : String
  path : String
deriving DecidableEq

/-- A WSGI response: the status line passed to `start_response`, the
headers, and the concatenated body. -/
structure WsgiResponse where
  status : String
  headers : List (String × String)
  body : String
deriving DecidableEq

/-- `StartupScriptFailureApplication.__call__`: for any request, respond
`500 Internal Server Error` with `Content-Type: text/html` and the filled
startup-failure template as the body. -/
def StartupScriptFailureApplication (record : FailureRecord)
    (_r : WsgiRequest) : WsgiResponse :=
  { status := "500 Internal Server Error"
    headers := [("Content-Type", "text/html")]
    body := startupFailureTemplate record.exception_message
      (configStr record.config) record.formatted_traceback }

/-- C4: for every failure record and every incoming request, regardless of
method and path, the failure application answers status 500 with an HTML
body that embeds verbatim the captured exception message, `str(config)`,
and the captured stack trace (the body is the fixed template around exactly
those three strings). -/
theorem failure_app_response (record : FailureRecord) (r : WsgiRequest) :
    (StartupScriptFailureApplication record r).status =
      "500 Internal Server Error" ∧
    (StartupScriptFailureApplication record r).headers =
      [("Content-Type", "text/html")] ∧
    ∃ s1 s2 s3 s4,
      (StartupScriptFailureApplication record r).body =
        s1 ++ record.exception_message ++ s2 ++ configStr record.config ++
          s3 ++ record.formatted_traceback ++ s4 :=
  ⟨rfl, rfl, templatePrefix, templateMid1, templateMid2, templateSuffix, rfl⟩

/-- C6: when the database sub-record gives host `localhost` with no
explicit socket on a posix system, `setup_stubs` resolves the unix socket
through the driver lookup and installs exactly that result in the connect
kwargs; and however many connection attempts follow, the
"lookup returned nothing" warning is emitted at most once per process,
because only the single per-process lookup can emit it. -/
theorem localhost_socket_resolution (env : Env) (config : Config)
    (sql : CloudSqlConfig)
    (hc : config.cloud_sql_config = some sql)
    (hsock : sql.mysql_socket = "")
    (hhost : sql.mysql_host = "localhost")
    (hos : env.osName = "posix") :
    (setup_stubs env config).connect_kwargs =
      some { host := "localhost"
             port := sql.mysql_port
             user := sql.mysql_user
             passwd := sql.mysql_password
             unix_socket := some env.findUnixSocket } ∧
    ∀ retries : Nat, processLookupWarnings env config retries ≤ 1 := by
  constructor
  · unfold setup_stubs
    simp [hc, hsock, hhost, hos, FindUnixSocket]
    cases env.findUnixSocket <;> simp
  · intro retries
    unfold processLookupWarnings setup_stubs connectAttemptLookupWarnings
    simp [hc, hsock, hhost, hos, FindUnixSocket]
    cases env.findUnixSocket <;> simp

/-- A configuration carrying a database sub-record with host `localhost`
and no explicit socket path. -/
def configSql : Config :=
  { app_id := "guestbook"
    api_port := 8080
    cloud_sql_config := some { mysql_host := "localhost"
                               mysql_port := 3306
                               mysql_user := "root"
                               mysql_password := "secret"
                               mysql_socket := "" }
    python_config := none }

/-- Witness for C6 at the concrete run `setup_stubs env0 configSql`
(where the driver lookup yields nothing). -/
theorem localhost_socket_resolution_witness :
    (setup_stubs env0 configSql).connect_kwargs =
      some { host := "localhost"
             port := 3306
             user := "root"
             passwd := "secret"
             unix_socket := some none } ∧
    ∀ retries : Nat, processLookupWarnings env0 configSql retries ≤ 1 :=
  localhost_socket_resolution env0 configSql
    { mysql_host := "localhost"
      mysql_port := 3306
      mysql_user := "root"
      mysql_password := "secret"
      mysql_socket := "" }
    rfl rfl rfl rfl

/-- C8 as stated is false: on a run whose startup script raises, `main`
still reads both fixed files but exports neither `MY_IP_ADDRESS` nor
`NGINX_HOST` — the exports sit on the non-failure branch only.  Concretely,
the failing run `main envBoom configBoom` sets no environment variable at
all. -/
theorem env_export_counterexample :
    (main envBoom configBoom).env_vars.lookup "MY_IP_ADDRESS" = none ∧
    (main envBoom configBoom).env_vars.lookup "NGINX_HOST" = none ∧
    (main envBoom configBoom).events.filter
      (fun e => match e with
                | Event.setEnvVar _ _ => true
                | _ => false) = [] := by
  refine ⟨rfl, rfl, rfl⟩

/-- C8 amended: on every run of `main` the two fixed local files are read
(each exactly once); and on the normal path — whenever `debugging_app`
stays unset — the values obtained (the stripped private-IP file and the
first line of the login-IP file) are exported as `MY_IP_ADDRESS` and
`NGINX_HOST` for the hosted request-handling chain. -/
theorem env_files_read_and_exported (env : Env) (config : Config) :
    ((main env config).events.count
        (Event.readFile "/etc/appscale/my_private_ip") = 1 ∧
     (main env config).events.count
        (Event.readFile "/etc/appscale/login_ip") = 1) ∧
    ((main env config).debugging_app = none →
      (main env config).env_vars =
        [("MY_IP_ADDRESS", env.myPrivateIpFile.trim),
         ("NGINX_HOST", (env.loginIpFile.splitOn "\n").headD "")]) := by
  unfold main runStartupScript
  by_cases hs : config.hasStartupScript = true
  · simp only [hs, if_true]
    cases henv : env.execScript config.startupScriptPath <;>
      simp [List.count_cons, List.count_append]
  · simp only [Bool.not_eq_true] at hs
    simp [hs, List.count_cons, List.count_append]

/-- Witness for C8-amended at the concrete run `main env0 config0`. -/
theorem env_files_read_and_exported_witness :
    (main env0 config0).env_vars =
      [("MY_IP_ADDRESS", env0.myPrivateIpFile.trim),
       ("NGINX_HOST", (env0.loginIpFile.splitOn "\n").headD "")] :=
  (env_files_read_and_exported env0 config0).2 rfl

/-- C9: the replacement installed for `os.path.expanduser` on the sandboxed
path is an identity function — for every path argument, `expand_user`
returns its input unchanged. -/
theorem expand_user_identity : ∀ path : String, expand_user path = path :=
  fun _ => rfl

end AppscaleRuntime

namespace AppscaleAdmin

/-- The two ZooKeeper errors this handler can meet: `NoNodeError` (node or
parent missing) and `NodeExistsError` (create on an existing node; only
`NoNodeError` is caught by the handler). -/
inductive ZkError
  | noNode
  | nodeExists
deriving DecidableEq

/-- The coordination-service store: an association of node paths to their
stored data. -/
structure ZkStore where
  nodes : List (String × String)
deriving DecidableEq

/-- Whether a node exists at the given path. -/
def ZkStore.hasNode (s : ZkStore) (path : String) : Bool :=
  (s.nodes.lookup path).isSome

/-- The direct parent of a slash-separated path: everything before the
last `/`. -/
def parentOf (path : String) : String :=
  String.mk (((path.toList.reverse.dropWhile (fun c => c != '/')).drop 1).reverse)

/-- `zk_client.set(path, value)`: overwrite the data of an existing node;
raise `NoNodeError` when the node does not exist. -/
def ZkStore.setNode (s : ZkStore) (path value : String) :
    Except ZkError ZkStore :=
  if s.hasNode path then
    Except.ok ⟨s.nodes.map (fun p => if p.1 = path then (path, value) else p)⟩
  else Except.error ZkError.noNode

/-- `zk_client.create(path, value)` (no `makepath`): raise
`NodeExistsError` when the node already exists, `NoNodeError` when its
parent does not exist, and otherwise store the new node. -/
def ZkStore.createNode (s : ZkStore) (path value : String) :
    Except ZkError ZkStore :=
  if s.hasNode path then Except.error ZkError.nodeExists
  else if s.hasNode (parentOf path) then
    Except.ok ⟨(path, value) :: s.nodes⟩
  else Except.error ZkError.noNode

/-- The errors the handler can surface, each ending the request before any
further work: the two `CustomHTTPError`s it raises (400 and 404), the
`InvalidConfiguration` raised for unparsable YAML, an authentication
failure raised by `self.authenticate`, and an uncaught ZooKeeper error. -/
inductive HandlerError
  | badRequest (message : String)
  | notFound (message : String)
  | invalidConfiguration (message : String)
  | unauthorized
  | uncaughtZk
deriving DecidableEq

/-- The handler's collaborators, abstracted: `yaml.safe_load` (its error is
the `ParserError` the handler catches), `queues_from_dict` (its error is
the `InvalidConfiguration` message), `json.dumps`, and whether
`self.authenticate` accepts the project. -/
structure ApiEnv where
  safeLoad : String → Except Unit String
  queues_from_dict : String → Except String String
  jsonDumps : String → String
  authOk : String → Bool

/-- An incoming POST: the optional `app_id` query argument and the raw
request body. -/
structure UpdateQueuesRequest where
  app_id : Option String
  body : String

/-- The ZooKeeper path the handler writes for a project. -/
def queueNodeOf (project_id : String) : String :=
  "/appscale/projects/" ++ project_id ++ "/queues"

/-- `UpdateQueuesHandler.post`, state-passing: returns the resulting store
together with `none` on success or the error that ended the request.
Order of operations follows the source: require `app_id`, authenticate,
parse the body as YAML, validate the queues, then `set` the queue node and
fall back to `create` when `set` raises `NoNodeError`, answering 404 when
`create` raises `NoNodeError` too. -/
def UpdateQueuesHandler.post (env : ApiEnv) (store : ZkStore)
    (req : UpdateQueuesRequest) : ZkStore × Option HandlerError :=
  match req.app_id with
  | none => (store, some (HandlerError.badRequest "app_id parameter is required"))
  | some project_id =>
    if env.authOk project_id then
      match env.safeLoad req.body with
      | Except.error _ =>
          (store, some (HandlerError.invalidConfiguration "Payload must be valid YAML"))
      | Except.ok payload =>
        match env.queues_from_dict payload with
        | Except.error msg => (store, some (HandlerError.badRequest msg))
        | Except.ok queues =>
          let data := env.jsonDumps queues
          match store.setNode (queueNodeOf project_id) data with
          | Except.ok s => (s, none)
          | Except.error ZkError.nodeExists => (store, some HandlerError.uncaughtZk)
          | Except.error ZkError.noNode =>
            match store.createNode (queueNodeOf project_id) data with
            | Except.ok s => (s, none)
            | Except.error ZkError.nodeExists => (store, some HandlerError.uncaughtZk)
            | Except.error ZkError.noNode =>
                (store, some (HandlerError.notFound (project_id ++ " not found")))
    else (store, some HandlerError.unauthorized)

/-- C10: the queue-update handler (a) answers 400 without touching the
store when `app_id` is missing; (b) answers the InvalidConfiguration error
without touching the store when the body is not valid YAML; (c) answers 400
without touching the store when the queue configuration is invalid; (d)
when `set` succeeds it never falls back; (e) when `set` raises `NoNodeError`
it falls back to `create`, keeping its result on success; (f) it answers
404 when `create` then raises `NoNodeError` too; and (g) conversely, a 404
answer only ever arises when both `set` and `create` raised `NoNodeError`,
with the store left unchanged. -/
theorem update_queues_post_spec (env : ApiEnv) (store : ZkStore)
    (req : UpdateQueuesRequest) :
    (req.app_id = none →
      UpdateQueuesHandler.post env store req =
        (store, some (HandlerError.badRequest "app_id parameter is required"))) ∧
    (∀ pid, req.app_id = some pid → env.authOk pid = true →
      env.safeLoad req.body = Except.error () →
      UpdateQueuesHandler.post env store req =
        (store, some (HandlerError.invalidConfiguration "Payload must be valid YAML"))) ∧
    (∀ pid p m, req.app_id = some pid → env.authOk pid = true →
      env.safeLoad req.body = Except.ok p →
      env.queues_from_dict p = Except.error m →
      UpdateQueuesHandler.post env store req =
        (store, some (HandlerError.badRequest m))) ∧
    (∀ pid p q s, req.app_id = some pid → env.authOk pid = true →
      env.safeLoad req.body = Except.ok p →
      env.queues_from_dict p = Except.ok q →
      store.setNode (queueNodeOf pid) (env.jsonDumps q) = Except.ok s →
      UpdateQueuesHandler.post env store req = (s, none)) ∧
    (∀ pid p q s, req.app_id = some pid → env.authOk pid = true →
      env.safeLoad req.body = Except.ok p →
      env.queues_from_dict p = Except.ok q →
      store.setNode (queueNodeOf pid) (env.jsonDumps q) =
        Except.error ZkError.noNode →
      store.createNode (queueNodeOf pid) (env.jsonDumps q) = Except.ok s →
      UpdateQueuesHandler.post env store req = (s, none)) ∧
    (∀ pid p q, req.app_id = some pid → env.authOk pid = true →
      env.safeLoad req.body = Except.ok p →
      env.queues_from_dict p = Except.ok q →
      store.setNode (queueNodeOf pid) (env.jsonDumps q) =
        Except.error ZkError.noNode →
      store.createNode (queueNodeOf pid) (env.jsonDumps q) =
        Except.error ZkError.noNode →
      UpdateQueuesHandler.post env store req =
        (store, some (HandlerError.notFound (pid ++ " not found")))) ∧
    (∀ m, (UpdateQueuesHandler.post env store req).2 =
        some (HandlerError.notFound m) →
      (UpdateQueuesHandler.post env store req).1 = store ∧
      ∃ pid p q, req.app_id = some pid ∧
        env.safeLoad req.body = Except.ok p ∧
        env.queues_from_dict p = Except.ok q ∧
        store.setNode (queueNodeOf pid) (env.jsonDumps q) =
          Except.error ZkError.noNode ∧
        store.createNode (queueNodeOf pid) (env.jsonDumps q) =
          Except.error ZkError.noNode) := by
  obtain ⟨app_id, body⟩ := req
  cases app_id with
  | none =>
      refine ⟨fun _ => rfl, ?_, ?_, ?_, ?_, ?_, ?_⟩ <;>
        · intros
          simp_all [UpdateQueuesHandler.post]
  | some pid =>
      by_cases hauth : env.authOk pid = true
      · cases hload : env.safeLoad body with
        | error u =>
            cases u
            refine ⟨by simp, ?_, ?_, ?_, ?_, ?_, ?_⟩ <;>
              simp_all [UpdateQueuesHandler.post]
        | ok p =>
            cases hq : env.queues_from_dict p with
            | error m =>
                refine ⟨by simp, ?_, ?_, ?_, ?_, ?_, ?_⟩ <;>
                  simp_all [UpdateQueuesHandler.post]
            | ok q =>
                cases hset : ZkStore.setNode store (queueNodeOf pid)
                    (env.jsonDumps q) with
                | ok s =>
                    refine ⟨by simp, ?_, ?_, ?_, ?_, ?_, ?_⟩ <;>
                      simp_all [UpdateQueuesHandler.post]
                | error ze =>
                    cases ze with
                    | nodeExists =>
                        refine ⟨by simp, ?_, ?_, ?_, ?_, ?_, ?_⟩ <;>
                          simp_all [UpdateQueuesHandler.post]
                    | noNode =>
                        cases hcr : ZkStore.createNode store (queueNodeOf pid)
                            (env.jsonDumps q) with
                        | ok s =>
                            refine ⟨by simp, ?_, ?_, ?_, ?_, ?_, ?_⟩ <;>
                              simp_all [UpdateQueuesHandler.post]
                        | error ze2 =>
                            cases ze2 with
                            | nodeExists =>
                                refine ⟨by simp, ?_, ?_, ?_, ?_, ?_, ?_⟩ <;>
                                  simp_all [UpdateQueuesHandler.post]
                            | noNode =>
                                refine ⟨by simp, ?_, ?_, ?_, ?_, ?_, ?_⟩ <;>
                                  · intros
                                    simp_all [UpdateQueuesHandler.post]
      · refine ⟨by simp, ?_, ?_, ?_, ?_, ?_, ?_⟩ <;>
          simp_all [UpdateQueuesHandler.post]

/-- A deterministic set of collaborators: the body parses to itself, the
queues validate to themselves, `json.dumps` is the identity tag, and every
project authenticates. -/
def apiEnv0 : ApiEnv :=
  { safeLoad := fun s => Except.ok s
    queues_from_dict := fun s => Except.ok s
    jsonDumps := fun s => s
    authOk := fun _ => true }

/-- A store holding only the projects root, so that for any project the
queue node and its parent are both absent. -/
def store0 : ZkStore := ⟨[("/appscale/projects", "")]⟩

/-- Witness for C10 at a concrete request: with the project node absent,
`set` raises `NoNodeError`, the `create` fallback raises `NoNodeError` as
well, and the handler answers 404 with the store unchanged. -/
theorem update_queues_post_spec_witness :
    UpdateQueuesHandler.post apiEnv0 store0
        { app_id := some "guestbook", body := "queue:" } =
      (store0, some (HandlerError.notFound "guestbook not found")) :=
  (update_queues_post_spec apiEnv0 store0
      { app_id := some "guestbook", body := "queue:" }).2.2.2.2.2.1
    "guestbook" "queue:" "queue:" rfl rfl rfl rfl rfl rfl

end AppscaleAdmin
